import Mathlib

/-!
Shallow embedding of the rbcapp1 monitoring core:
  - `api/app.py`   — Flask REST API (ingestion gateway, status resolver, health probe)
  - `monitor/monitor-services.py` — the observation emitter

The store (Elasticsearch) and host environment are modelled as explicit
environment records so that every handler is a pure function of the
environment and its request, returning the HTTP-level response together
with the list of store operations (searches / document writes) that the
handler attempted during the request.
-/

set_option autoImplicit false

namespace Rbcapp1

/-- `SUPPORTED_SERVICES` from `app.py` line 31: the service registry. -/
def SUPPORTED_SERVICES : List String := ["httpd", "rabbitmq", "postgresql"]

/-- A UTC datetime as produced by Python's `datetime.utcnow()`. -/
structure DateTime where
  year : Nat
  month : Nat
  day : Nat
  hour : Nat
  minute : Nat
  second : Nat
  microsecond : Nat
deriving DecidableEq

/-- Left-pad the decimal rendering of `n` with zeros to width `w`
(Python's fixed-width `%04d` / `%02d` / `%06d` fields). -/
def padNum (w n : Nat) : String :=
  let s := toString n
  String.mk (List.replicate (w - s.length) '0') ++ s

/-- Python's `datetime.isoformat()`: `YYYY-MM-DDTHH:MM:SS[.ffffff]`,
the fractional part omitted when `microsecond = 0`. -/
def isoformat (d : DateTime) : String :=
  padNum 4 d.year ++ "-" ++ padNum 2 d.month ++ "-" ++ padNum 2 d.day ++ "T" ++
  padNum 2 d.hour ++ ":" ++ padNum 2 d.minute ++ ":" ++ padNum 2 d.second ++
  (if d.microsecond = 0 then "" else "." ++ padNum 6 d.microsecond)

/-- A JSON document as stored in / read from Elasticsearch: the five
fields the application ever touches, each possibly absent.
`atTimestamp` stands for the `"@timestamp"` key. -/
structure Doc where
  service_name : Option String := none
  service_status : Option String := none
  host_name : Option String := none
  timestamp : Option String := none
  atTimestamp : Option String := none
deriving DecidableEq

/-- Outcome of one `es.search(index=...)` call. -/
inductive QueryOutcome where
  /-- The search call raised an exception. -/
  | raises (msg : String)
  /-- `hits.total.value > 0`; `hit` is the `_source` of the first hit. -/
  | found (hit : Doc)
  /-- `hits.total.value = 0`. -/
  | empty
deriving DecidableEq

/-- Outcome of one `es.index(index=..., body=...)` call. -/
inductive IndexOutcome where
  | raises (msg : String)
  | ok (docId : String)
deriving DecidableEq

/-- Outcome of `es.ping(request_timeout=5)`. -/
inductive PingOutcome where
  | raises (msg : String)
  | ok (b : Bool)
deriving DecidableEq

/-- The state of the process-wide Elasticsearch client and its probe:
whether `Elasticsearch([es_url])` construction failed (leaving the
global `es_client` as `None`), and how `ping` behaves. -/
structure ESEnv where
  constructionRaises : Bool
  ping : PingOutcome
deriving DecidableEq

/-- `get_elasticsearch_client` (`app.py` 34-48): construction failures are
caught inside and yield `None`; otherwise a client handle exists. -/
def get_elasticsearch_client (env : ESEnv) : Option Unit :=
  if env.constructionRaises then none else some ()

/-- The body of the `try:` block of `is_elasticsearch_healthy`
(`app.py` 53-65): a `None` client returns `False`; a ping may raise
(propagated here as `.error`) or return a boolean. -/
def es_healthy_try (env : ESEnv) : Except String Bool :=
  match get_elasticsearch_client env with
  | none => Except.ok false
  | some _ =>
    match env.ping with
    | PingOutcome.raises msg => Except.error msg
    | PingOutcome.ok true => Except.ok true
    | PingOutcome.ok false => Except.ok false

/-- `is_elasticsearch_healthy` (`app.py` 51-68): the `except` clause
catches everything the `try` body raised and returns `False`. -/
def is_elasticsearch_healthy (env : ESEnv) : Except String Bool :=
  match es_healthy_try env with
  | Except.ok b => Except.ok b
  | Except.error _ => Except.ok false

/-- The boolean the callers of `is_elasticsearch_healthy` observe. -/
def pingOk (env : ESEnv) : Bool :=
  match is_elasticsearch_healthy env with
  | Except.ok b => b
  | Except.error _ => false

/-- The full environment one API request executes against. -/
structure Env where
  esEnv : ESEnv
  /-- Outcome of `es.search` per index name. -/
  search : String → QueryOutcome
  /-- Outcome of `es.index` per index name and body. -/
  indexOutcome : String → Doc → IndexOutcome
  /-- `datetime.utcnow()` during this request. -/
  now : DateTime

/-- A store operation attempted by a handler. -/
inductive StoreOp where
  /-- `es.search(index=idx, ...)` -/
  | search (idx : String)
  /-- `es.index(index=idx, body=doc)` -/
  | indexDoc (idx : String) (doc : Doc)
deriving DecidableEq

/-- `get_service_status_from_elasticsearch` (`app.py` 71-97), together
with the store operations it attempted.  A `None` client returns `None`
without touching the store; a search exception is caught by the outer
`except` and also yields `None`; an empty result yields `None`; a hit
returns its `_source`. -/
def get_service_status_from_elasticsearch (env : Env) (service_name : String) :
    Option Doc × List StoreOp :=
  match get_elasticsearch_client env.esEnv with
  | none => (none, [])
  | some _ =>
    let index_name := "rbcapp1-" ++ service_name
    match env.search index_name with
    | QueryOutcome.raises _ => (none, [StoreOp.search index_name])
    | QueryOutcome.found hit => (some hit, [StoreOp.search index_name])
    | QueryOutcome.empty => (none, [StoreOp.search index_name])

/-- One entry of the `all_statuses` dictionary (`app.py` 121-129). -/
structure StatusEntry where
  status : String
  timestamp : String
deriving DecidableEq

/-- The per-service loop body of `get_all_services_status`
(`app.py` 114-129): a query exception degrades the entry to `ERROR`,
an empty result to `NO_DATA`, and a hit reads `service_status`
(default `UNKNOWN`) and `@timestamp` (default `N/A`). -/
def serviceEntry : QueryOutcome → StatusEntry
  | QueryOutcome.raises _ => { status := "ERROR", timestamp := "N/A" }
  | QueryOutcome.found hit =>
      { status := hit.service_status.getD "UNKNOWN",
        timestamp := hit.atTimestamp.getD "N/A" }
  | QueryOutcome.empty => { status := "NO_DATA", timestamp := "N/A" }

/-- `get_all_services_status` (`app.py` 100-134): `None` when the client
is `None`, otherwise one entry per supported service, in registry order,
with the attempted searches as trace. -/
def get_all_services_status (env : Env) :
    Option (List (String × StatusEntry)) × List StoreOp :=
  match get_elasticsearch_client env.esEnv with
  | none => (none, [])
  | some _ =>
    (some (SUPPORTED_SERVICES.map fun service =>
        (service, serviceEntry (env.search ("rbcapp1-" ++ service)))),
     SUPPORTED_SERVICES.map fun service => StoreOp.search ("rbcapp1-" ++ service))

/-- Responses of `GET /healthcheck` (`app.py` 173-203). -/
inductive HealthcheckResponse where
  /-- 503 `{"error": "Elasticsearch unavailable", "status": "UNKNOWN"}` -/
  | esUnavailable
  /-- 500 `{"error": "Failed to retrieve services status", "status": "ERROR"}` -/
  | failed
  /-- 200 `{"timestamp": ts, "services": svcs}` -/
  | ok (timestamp : String) (services : List (String × StatusEntry))
deriving DecidableEq

/-- HTTP status code of a `GET /healthcheck` response. -/
def HealthcheckResponse.httpCode : HealthcheckResponse → Nat
  | HealthcheckResponse.esUnavailable => 503
  | HealthcheckResponse.failed => 500
  | HealthcheckResponse.ok _ _ => 200

/-- The `services` body field of a 200 `GET /healthcheck` response. -/
def HealthcheckResponse.servicesList :
    HealthcheckResponse → Option (List (String × StatusEntry))
  | HealthcheckResponse.ok _ svcs => some svcs
  | _ => none

/-- The `healthcheck` handler for `GET /healthcheck` (`app.py` 173-203). -/
def healthcheck (env : Env) : HealthcheckResponse × List StoreOp :=
  if pingOk env.esEnv then
    match get_all_services_status env with
    | (none, tr) => (HealthcheckResponse.failed, tr)
    | (some all_statuses, tr) =>
        (HealthcheckResponse.ok (isoformat env.now ++ "Z") all_statuses, tr)
  else
    (HealthcheckResponse.esUnavailable, [])

/-- Responses of `GET /healthcheck/<service>` (`app.py` 206-266). -/
inductive ServiceCheckResponse where
  /-- 400 `{"error": ..., "available_services": avail}` -/
  | unknownService (service : String) (available : List String)
  /-- 503 `{"service": s, "status": "UNKNOWN", "reason": "Elasticsearch unavailable"}` -/
  | esUnavailable (service : String)
  /-- 200 `{"service": s, "status": "NO_DATA", "message": ...}` -/
  | noData (service : String)
  /-- 200 `{"service": s, "status": st, "host_name": h, "timestamp": ts}` -/
  | ok (service status host_name timestamp : String)
deriving DecidableEq

/-- HTTP status code of a `GET /healthcheck/<service>` response. -/
def ServiceCheckResponse.httpCode : ServiceCheckResponse → Nat
  | ServiceCheckResponse.unknownService _ _ => 400
  | ServiceCheckResponse.esUnavailable _ => 503
  | ServiceCheckResponse.noData _ => 200
  | ServiceCheckResponse.ok _ _ _ _ => 200

/-- The `"status"` body field of a `GET /healthcheck/<service>` response
(absent from the 400 unknown-service body). -/
def ServiceCheckResponse.statusString : ServiceCheckResponse → Option String
  | ServiceCheckResponse.unknownService _ _ => none
  | ServiceCheckResponse.esUnavailable _ => some "UNKNOWN"
  | ServiceCheckResponse.noData _ => some "NO_DATA"
  | ServiceCheckResponse.ok _ status _ _ => some status

/-- The `"timestamp"` body field of a `GET /healthcheck/<service>` response. -/
def ServiceCheckResponse.timestampString : ServiceCheckResponse → Option String
  | ServiceCheckResponse.ok _ _ _ ts => some ts
  | _ => none

/-- The `healthcheck_service` handler for `GET /healthcheck/<service>`
(`app.py` 206-266): registry check, then probe, then lookup; a `None`
lookup result answers `NO_DATA` with 200. -/
def healthcheck_service (env : Env) (service : String) :
    ServiceCheckResponse × List StoreOp :=
  if service ∈ SUPPORTED_SERVICES then
    if pingOk env.esEnv then
      match get_service_status_from_elasticsearch env service with
      | (none, tr) => (ServiceCheckResponse.noData service, tr)
      | (some hit, tr) =>
          (ServiceCheckResponse.ok service (hit.service_status.getD "UNKNOWN")
            (hit.host_name.getD "N/A") (hit.atTimestamp.getD "N/A"), tr)
    else
      (ServiceCheckResponse.esUnavailable service, [])
  else
    (ServiceCheckResponse.unknownService service SUPPORTED_SERVICES, [])

/-- `required_fields` (`app.py` 291). -/
def required_fields : List String := ["service_name", "service_status", "host_name"]

/-- Whether `field in data` holds for the incoming JSON document. -/
def hasField (data : Doc) : String → Bool
  | "service_name" => data.service_name.isSome
  | "service_status" => data.service_status.isSome
  | "host_name" => data.host_name.isSome
  | "timestamp" => data.timestamp.isSome
  | "@timestamp" => data.atTimestamp.isSome
  | _ => false

/-- `missing_fields` (`app.py` 292): the required fields absent from the
payload, in declaration order. -/
def missing_fields (data : Doc) : List String :=
  required_fields.filter fun f => ! hasField data f

/-- The timestamp mutation of `add_status` (`app.py` 330-331):
`data["@timestamp"] = utcnow().isoformat() + "Z"` then
`data["timestamp"] = data["@timestamp"]`, overwriting both fields
unconditionally. -/
def stamped (now : DateTime) (data : Doc) : Doc :=
  let ts := isoformat now ++ "Z"
  { data with atTimestamp := some ts, timestamp := some ts }

/-- Responses of `POST /add` (`app.py` 269-364). -/
inductive AddResponse where
  /-- 400 `{"error": "Missing required fields: ...", "required_fields": ...}` -/
  | missingFields (missing : List String)
  /-- 400 `{"error": "Unknown service: s", "supported_services": ...}` -/
  | unknownService (service : String)
  /-- 503 `{"error": "Elasticsearch unavailable", "status": "FAILED"}` -/
  | esUnavailable
  /-- 500 `{"error": "Failed to insert status: ...", "status": "FAILED"}` -/
  | insertFailed (msg : String)
  /-- 201: the accepted record echoed back with the store id. -/
  | created (service : String) (status : Option String)
      (host_name : Option String) (timestamp : String) (esId : String)
deriving DecidableEq

/-- HTTP status code of a `POST /add` response. -/
def AddResponse.httpCode : AddResponse → Nat
  | AddResponse.missingFields _ => 400
  | AddResponse.unknownService _ => 400
  | AddResponse.esUnavailable => 503
  | AddResponse.insertFailed _ => 500
  | AddResponse.created _ _ _ _ _ => 201

/-- The `add_status` handler for `POST /add` (`app.py` 269-364), on an
already-parsed JSON payload: field check, registry check, probe, then
the write.  (If `service_name` were somehow absent after the field check
Python would compare `None` against the registry and answer
unknown-service; that branch is unreachable.) -/
def add_status (env : Env) (data : Doc) : AddResponse × List StoreOp :=
  if missing_fields data ≠ [] then
    (AddResponse.missingFields (missing_fields data), [])
  else
    match data.service_name with
    | none => (AddResponse.unknownService "None", [])
    | some service_name =>
      if service_name ∈ SUPPORTED_SERVICES then
        if pingOk env.esEnv then
          let data2 := stamped env.now data
          let index_name := "rbcapp1-" ++ service_name
          match env.indexOutcome index_name data2 with
          | IndexOutcome.raises msg =>
              (AddResponse.insertFailed msg, [StoreOp.indexDoc index_name data2])
          | IndexOutcome.ok docId =>
              (AddResponse.created service_name data2.service_status
                 data2.host_name (isoformat env.now ++ "Z") docId,
               [StoreOp.indexDoc index_name data2])
        else
          (AddResponse.esUnavailable, [])
      else
        (AddResponse.unknownService service_name, [])

/-!  The observation emitter, `monitor/monitor-services.py`.  -/

/-- Outcome of writing one status JSON file to the output directory. -/
inductive WriteOutcome where
  | raises (msg : String)
  | ok
deriving DecidableEq

/-- The emitter's host environment: the current UTC time, the value of
`os.uname().nodename`, and how the file write behaves per service. -/
structure MonitorEnv where
  now : DateTime
  nodename : String
  writeOutcome : String → WriteOutcome

/-- `self.service_status_config` (`monitor-services.py` 26-30). -/
def service_status_config : List (String × String) :=
  [("httpd", "UP"), ("rabbitmq", "DOWN"), ("postgresql", "UP")]

/-- `get_service_status` (`monitor-services.py` 32-33). -/
def get_service_status (service_name : String) : String :=
  (service_status_config.lookup service_name).getD "UNKNOWN"

/-- The payload built by `generate_status_json`
(`monitor-services.py` 36-43). -/
def status_payload (env : MonitorEnv) (service_name status : String) : Doc :=
  let timestamp := isoformat env.now ++ "Z"
  { service_name := some service_name,
    service_status := some status,
    host_name := some env.nodename,
    timestamp := some timestamp,
    atTimestamp := some timestamp }

/-- `generate_status_json` (`monitor-services.py` 35-50): builds the
payload and writes it to a file; a failing write raises. -/
def generate_status_json (env : MonitorEnv) (service_name status : String) :
    Except String Doc :=
  let payload := status_payload env service_name status
  match env.writeOutcome service_name with
  | WriteOutcome.raises msg => Except.error msg
  | WriteOutcome.ok => Except.ok payload

/-- `list(self.service_status_config.keys())` (`monitor-services.py` 53). -/
def monitor_services_list : List String := service_status_config.map Prod.fst

/-- The `for service in services:` loop of `monitor_all_services`
(`monitor-services.py` 54-56): there is no per-service exception
handling, so the first raising write aborts the loop and propagates.
Returns the services attempted, in order, with the final outcome. -/
def monitor_loop (env : MonitorEnv) :
    List String → List String → List String × Except String Unit
  | [], attempted => (attempted.reverse, Except.ok ())
  | service :: rest, attempted =>
    match generate_status_json env service (get_service_status service) with
    | Except.error msg => ((service :: attempted).reverse, Except.error msg)
    | Except.ok _ => monitor_loop env rest (service :: attempted)

/-- `monitor_all_services` (`monitor-services.py` 52-57). -/
def monitor_all_services (env : MonitorEnv) : List String × Except String Unit :=
  monitor_loop env monitor_services_list []

/-- One cycle as supervised by `main` (`monitor-services.py` 60-80):
`except Exception` logs the error and then re-raises it, so a cycle
error terminates the process. -/
def main_one_cycle (env : MonitorEnv) : Except String Unit :=
  match (monitor_all_services env).2 with
  | Except.error msg => Except.error msg
  | Except.ok _ => Except.ok ()

/-!  Helper lemmas shared by the claim theorems.  -/

/-- If the probe reports healthy, the client handle exists. -/
theorem pingOk_client (env : ESEnv) (h : pingOk env = true) :
    get_elasticsearch_client env = some () := by
  unfold pingOk is_elasticsearch_healthy es_healthy_try at h
  unfold get_elasticsearch_client at h ⊢
  by_cases hc : env.constructionRaises
  · simp [hc] at h
  · simp [hc]

/-- A healthy probe yields the 200 bulk response with one entry per
registered service, in registry order. -/
theorem healthcheck_healthy (env : Env) (hh : pingOk env.esEnv = true) :
    healthcheck env =
      (HealthcheckResponse.ok (isoformat env.now ++ "Z")
        (SUPPORTED_SERVICES.map fun s =>
          (s, serviceEntry (env.search ("rbcapp1-" ++ s)))),
       SUPPORTED_SERVICES.map fun s => StoreOp.search ("rbcapp1-" ++ s)) := by
  have hc := pingOk_client env.esEnv hh
  simp [healthcheck, hh, get_all_services_status, hc]

/-- Looking a registered service up in the bulk services list gives the
entry computed from its own query outcome. -/
theorem services_lookup (env : Env) (s : String) (hs : s ∈ SUPPORTED_SERVICES) :
    (SUPPORTED_SERVICES.map fun t =>
        (t, serviceEntry (env.search ("rbcapp1-" ++ t)))).lookup s =
      some (serviceEntry (env.search ("rbcapp1-" ++ s))) := by
  simp only [SUPPORTED_SERVICES, List.mem_cons, List.not_mem_nil, or_false] at hs
  rcases hs with rfl | rfl | rfl <;> simp [SUPPORTED_SERVICES, List.lookup]

/-!  The claims.  -/

/-- C8: the health probe is total: for every outcome of client
construction and ping (including exceptions raised by either), it
returns a boolean and never propagates an exception to its caller. -/
theorem health_probe_total (env : ESEnv) :
    ∃ b : Bool, is_elasticsearch_healthy env = Except.ok b := by
  unfold is_elasticsearch_healthy
  cases es_healthy_try env with
  | ok b => exact ⟨b, rfl⟩
  | error _ => exact ⟨false, rfl⟩

/-- C7: for a registered service, a healthy store whose collection for
that service is empty resolves to `NO_DATA` as a 200 success. -/
theorem resolveOne_empty_no_data (env : Env) (s : String)
    (hs : s ∈ SUPPORTED_SERVICES) (hh : pingOk env.esEnv = true)
    (he : env.search ("rbcapp1-" ++ s) = QueryOutcome.empty) :
    healthcheck_service env s =
      (ServiceCheckResponse.noData s, [StoreOp.search ("rbcapp1-" ++ s)]) ∧
    (ServiceCheckResponse.noData s).httpCode = 200 ∧
    (ServiceCheckResponse.noData s).statusString = some "NO_DATA" := by
  have hc := pingOk_client env.esEnv hh
  refine ⟨?_, rfl, rfl⟩
  simp [healthcheck_service, hs, hh, get_service_status_from_elasticsearch, hc, he]

/-- C7 witness: the registered service `httpd` against a healthy store
with empty collections. -/
theorem resolveOne_empty_no_data_witness :
    healthcheck_service
        { esEnv := { constructionRaises := false, ping := PingOutcome.ok true },
          search := fun _ => QueryOutcome.empty,
          indexOutcome := fun _ _ => IndexOutcome.ok "id0",
          now := ⟨2024, 1, 2, 3, 4, 5, 0⟩ } "httpd" =
      (ServiceCheckResponse.noData "httpd", [StoreOp.search "rbcapp1-httpd"]) :=
  (resolveOne_empty_no_data _ "httpd" (by decide) (by decide) rfl).1

/-- C1 counterexample: with a reachable store whose single-service query
raises, `GET /healthcheck/httpd` answers status `NO_DATA` (HTTP 200),
not `UNKNOWN` as the claim states. -/
theorem resolveOne_query_error_counterexample :
    (healthcheck_service
        { esEnv := { constructionRaises := false, ping := PingOutcome.ok true },
          search := fun _ => QueryOutcome.raises "shard failure",
          indexOutcome := fun _ _ => IndexOutcome.ok "id0",
          now := ⟨2024, 1, 2, 3, 4, 5, 0⟩ } "httpd").1.statusString =
        some "NO_DATA" ∧
    (healthcheck_service
        { esEnv := { constructionRaises := false, ping := PingOutcome.ok true },
          search := fun _ => QueryOutcome.raises "shard failure",
          indexOutcome := fun _ _ => IndexOutcome.ok "id0",
          now := ⟨2024, 1, 2, 3, 4, 5, 0⟩ } "httpd").1.statusString ≠
        some "UNKNOWN" ∧
    (healthcheck_service
        { esEnv := { constructionRaises := false, ping := PingOutcome.ok true },
          search := fun _ => QueryOutcome.raises "shard failure",
          indexOutcome := fun _ _ => IndexOutcome.ok "id0",
          now := ⟨2024, 1, 2, 3, 4, 5, 0⟩ } "httpd").1.httpCode = 200 := by
  refine ⟨rfl, ?_, rfl⟩
  decide

/-- C1 (amended): for a registered service, when the store is reachable
but the single-service query raises, `GET /healthcheck/<service>`
answers resolved status `NO_DATA` with HTTP 200 — indistinguishable
from an empty collection — and the error is logged but not propagated
as a request failure. -/
theorem resolveOne_query_error_no_data (env : Env) (s msg : String)
    (hs : s ∈ SUPPORTED_SERVICES) (hh : pingOk env.esEnv = true)
    (he : env.search ("rbcapp1-" ++ s) = QueryOutcome.raises msg) :
    healthcheck_service env s =
      (ServiceCheckResponse.noData s, [StoreOp.search ("rbcapp1-" ++ s)]) ∧
    (ServiceCheckResponse.noData s).httpCode = 200 := by
  have hc := pingOk_client env.esEnv hh
  refine ⟨?_, rfl⟩
  simp [healthcheck_service, hs, hh, get_service_status_from_elasticsearch, hc, he]

/-- C1 witness: a concrete reachable store whose query for `httpd`
raises; the handler answers `NO_DATA` with the search attempted. -/
theorem resolveOne_query_error_no_data_witness :
    healthcheck_service
        { esEnv := { constructionRaises := false, ping := PingOutcome.ok true },
          search := fun _ => QueryOutcome.raises "malformed collection",
          indexOutcome := fun _ _ => IndexOutcome.ok "id0",
          now := ⟨2024, 1, 2, 3, 4, 5, 0⟩ } "httpd" =
      (ServiceCheckResponse.noData "httpd", [StoreOp.search "rbcapp1-httpd"]) :=
  (resolveOne_query_error_no_data _ "httpd" "malformed collection"
    (by decide) (by decide) rfl).1

/-- C2: with a healthy store, `GET /healthcheck` answers 200 with exactly
one entry per registered service in registry order; a service whose
query raises is degraded to `ERROR` while every other service is still
looked up and reported from its own query outcome. -/
theorem resolveAll_covers_all_services (env : Env) (hh : pingOk env.esEnv = true) :
    ∃ svcs tr,
      healthcheck env = (HealthcheckResponse.ok (isoformat env.now ++ "Z") svcs, tr) ∧
      svcs.map Prod.fst = SUPPORTED_SERVICES ∧
      (∀ s msg, s ∈ SUPPORTED_SERVICES →
        env.search ("rbcapp1-" ++ s) = QueryOutcome.raises msg →
          svcs.lookup s = some { status := "ERROR", timestamp := "N/A" }) ∧
      (∀ s hit, s ∈ SUPPORTED_SERVICES →
        env.search ("rbcapp1-" ++ s) = QueryOutcome.found hit →
          svcs.lookup s = some { status := hit.service_status.getD "UNKNOWN",
                                 timestamp := hit.atTimestamp.getD "N/A" }) ∧
      (∀ s, s ∈ SUPPORTED_SERVICES →
        env.search ("rbcapp1-" ++ s) = QueryOutcome.empty →
          svcs.lookup s = some { status := "NO_DATA", timestamp := "N/A" }) := by
  refine ⟨_, _, healthcheck_healthy env hh, ?_, ?_, ?_, ?_⟩
  · rfl
  · intro s msg hs he
    rw [services_lookup env s hs, he]
    rfl
  · intro s hit hs he
    rw [services_lookup env s hs, he]
    rfl
  · intro s hs he
    rw [services_lookup env s hs, he]
    rfl

/-- A concrete environment with a healthy store where the `rabbitmq`
query raises, `httpd` has a hit and `postgresql` is empty. -/
def envMixed : Env :=
  { esEnv := { constructionRaises := false, ping := PingOutcome.ok true },
    search := fun idx =>
      if idx = "rbcapp1-rabbitmq" then QueryOutcome.raises "boom"
      else if idx = "rbcapp1-httpd" then
        QueryOutcome.found { service_status := some "UP", atTimestamp := some "t1" }
      else QueryOutcome.empty,
    indexOutcome := fun _ _ => IndexOutcome.ok "id0",
    now := ⟨2024, 1, 2, 3, 4, 5, 0⟩ }

/-- C2 witness: in `envMixed` the bulk response covers all three
registered services, reports `rabbitmq` as `ERROR` and still resolves
`httpd` and `postgresql` from their own outcomes. -/
theorem resolveAll_covers_all_services_witness :
    ∃ svcs tr,
      healthcheck envMixed =
        (HealthcheckResponse.ok (isoformat envMixed.now ++ "Z") svcs, tr) ∧
      svcs.map Prod.fst = ["httpd", "rabbitmq", "postgresql"] ∧
      svcs.lookup "rabbitmq" = some { status := "ERROR", timestamp := "N/A" } ∧
      svcs.lookup "httpd" = some { status := "UP", timestamp := "t1" } ∧
      svcs.lookup "postgresql" = some { status := "NO_DATA", timestamp := "N/A" } := by
  obtain ⟨svcs, tr, h1, h2, herr, hfound, hempty⟩ :=
    resolveAll_covers_all_services envMixed (by decide)
  refine ⟨svcs, tr, h1, by rw [h2]; rfl, ?_, ?_, ?_⟩
  · exact herr "rabbitmq" "boom" (by decide) rfl
  · exact hfound "httpd"
      { service_status := some "UP", atTimestamp := some "t1" } (by decide) rfl
  · exact hempty "postgresql" (by decide) rfl

/-- C3: `POST /add` validates in the order payload shape (400), then
registry membership (400), then backend reachability (503): a malformed
payload is rejected regardless of service name and backend health; a
well-formed payload with an unregistered name is rejected regardless of
backend health; only a well-formed, registered payload reaches the probe.
For every unregistered name, both `POST /add` and
`GET /healthcheck/<service>` fail with unknown-service (400) with no
store operation attempted. -/
theorem submit_validation_order (env : Env) :
    (∀ data : Doc, missing_fields data ≠ [] →
      add_status env data = (AddResponse.missingFields (missing_fields data), []) ∧
      (AddResponse.missingFields (missing_fields data)).httpCode = 400) ∧
    (∀ (data : Doc) (s : String), missing_fields data = [] →
      data.service_name = some s → s ∉ SUPPORTED_SERVICES →
      add_status env data = (AddResponse.unknownService s, []) ∧
      (AddResponse.unknownService s).httpCode = 400) ∧
    (∀ (data : Doc) (s : String), missing_fields data = [] →
      data.service_name = some s → s ∈ SUPPORTED_SERVICES →
      pingOk env.esEnv = false →
      add_status env data = (AddResponse.esUnavailable, []) ∧
      AddResponse.esUnavailable.httpCode = 503) ∧
    (∀ s : String, s ∉ SUPPORTED_SERVICES →
      healthcheck_service env s =
        (ServiceCheckResponse.unknownService s SUPPORTED_SERVICES, []) ∧
      (ServiceCheckResponse.unknownService s SUPPORTED_SERVICES).httpCode = 400) := by
  refine ⟨?_, ?_, ?_, ?_⟩
  · intro data hm
    exact ⟨by simp [add_status, hm], rfl⟩
  · intro data s hm hn hs
    exact ⟨by simp [add_status, hm, hn, hs], rfl⟩
  · intro data s hm hn hs hh
    exact ⟨by simp [add_status, hm, hn, hs, hh], rfl⟩
  · intro s hs
    exact ⟨by simp [healthcheck_service, hs], rfl⟩

/-- C3 witness: against a healthy concrete store, a payload missing
`service_status` and `host_name` is rejected as malformed; a well-formed
payload naming `ftp` is rejected as unknown; `GET /healthcheck/ftp` is
rejected as unknown; and against an unreachable store a well-formed
registered payload gets 503 — all with no store operation attempted. -/
theorem submit_validation_order_witness :
    (add_status envMixed { service_name := some "httpd" } =
      (AddResponse.missingFields ["service_status", "host_name"], [])) ∧
    (add_status envMixed
        { service_name := some "ftp", service_status := some "UP",
          host_name := some "h1" } =
      (AddResponse.unknownService "ftp", [])) ∧
    (healthcheck_service envMixed "ftp" =
      (ServiceCheckResponse.unknownService "ftp" SUPPORTED_SERVICES, [])) ∧
    (add_status
        { envMixed with
            esEnv := { constructionRaises := false, ping := PingOutcome.ok false } }
        { service_name := some "httpd", service_status := some "UP",
          host_name := some "h1" } =
      (AddResponse.esUnavailable, [])) := by
  refine ⟨?_, ?_, ?_, ?_⟩
  · exact ((submit_validation_order envMixed).1 _ (by decide)).1
  · exact ((submit_validation_order envMixed).2.1 _ "ftp" (by decide) rfl (by decide)).1
  · exact ((submit_validation_order envMixed).2.2.2 "ftp" (by decide)).1
  · exact ((submit_validation_order _).2.2.1 _ "httpd" (by decide) rfl (by decide)
      (by decide)).1

/-- C6: whenever the probe reports the store unreachable, `POST /add`
(on a well-formed, registered payload), `GET /healthcheck/<service>`
(on a registered name) and `GET /healthcheck` each fail fast with the
503 backend-unavailable response, and none of them attempts any store
read or write in that request. -/
theorem unreachable_store_fails_fast (env : Env) (hh : pingOk env.esEnv = false) :
    (healthcheck env = (HealthcheckResponse.esUnavailable, []) ∧
      HealthcheckResponse.esUnavailable.httpCode = 503) ∧
    (∀ s : String, s ∈ SUPPORTED_SERVICES →
      healthcheck_service env s = (ServiceCheckResponse.esUnavailable s, []) ∧
      (ServiceCheckResponse.esUnavailable s).httpCode = 503) ∧
    (∀ (data : Doc) (s : String), missing_fields data = [] →
      data.service_name = some s → s ∈ SUPPORTED_SERVICES →
      add_status env data = (AddResponse.esUnavailable, []) ∧
      AddResponse.esUnavailable.httpCode = 503) := by
  refine ⟨⟨by simp [healthcheck, hh], rfl⟩, ?_, ?_⟩
  · intro s hs
    exact ⟨by simp [healthcheck_service, hs, hh], rfl⟩
  · intro data s hm hn hs
    exact ⟨by simp [add_status, hm, hn, hs, hh], rfl⟩

/-- An environment whose probe reports the store unreachable
(the ping returns `False`). -/
def envDown : Env :=
  { esEnv := { constructionRaises := false, ping := PingOutcome.ok false },
    search := fun _ => QueryOutcome.empty,
    indexOutcome := fun _ _ => IndexOutcome.ok "id0",
    now := ⟨2024, 1, 2, 3, 4, 5, 0⟩ }

/-- C6 witness: with the store down, all three endpoints answer the 503
body with an empty store-operation trace. -/
theorem unreachable_store_fails_fast_witness :
    healthcheck envDown = (HealthcheckResponse.esUnavailable, []) ∧
    healthcheck_service envDown "rabbitmq" =
      (ServiceCheckResponse.esUnavailable "rabbitmq", []) ∧
    add_status envDown
        { service_name := some "rabbitmq", service_status := some "DOWN",
          host_name := some "h1" } =
      (AddResponse.esUnavailable, []) :=
  ⟨(unreachable_store_fails_fast envDown (by decide)).1.1,
   ((unreachable_store_fails_fast envDown (by decide)).2.1 "rabbitmq" (by decide)).1,
   ((unreachable_store_fails_fast envDown (by decide)).2.2 _ "rabbitmq"
     (by decide) rfl (by decide)).1⟩

/-- A payload for `POST /add` that already carries a `timestamp`. -/
def dataWithTs : Doc :=
  { service_name := some "httpd", service_status := some "UP",
    host_name := some "h1", timestamp := some "1999-12-31T23:59:59Z",
    atTimestamp := some "1999-12-31T23:59:59Z" }

/-- C5 counterexample: a valid payload supplying
`timestamp = "1999-12-31T23:59:59Z"` is accepted, but the stored
document carries the request-time stamp `2024-01-02T03:04:05Z` in both
timestamp fields — the supplied timestamp is NOT preserved. -/
theorem submit_timestamp_counterexample :
    (add_status envMixed dataWithTs).2 =
      [StoreOp.indexDoc "rbcapp1-httpd"
        { service_name := some "httpd", service_status := some "UP",
          host_name := some "h1", timestamp := some "2024-01-02T03:04:05Z",
          atTimestamp := some "2024-01-02T03:04:05Z" }] ∧
    dataWithTs.timestamp = some "1999-12-31T23:59:59Z" ∧
    some "2024-01-02T03:04:05Z" ≠ dataWithTs.timestamp := by
  refine ⟨?_, rfl, by decide⟩
  decide

/-- C5 (amended): for every valid accepted submission, `POST /add`
stamps the record's `timestamp` and `@timestamp` with the current UTC
time unconditionally — any supplied timestamp is overwritten — writes
the record to the collection keyed by `service_name`, and returns 201
with the accepted record and the store-assigned identifier. -/
theorem submit_success_stamps_and_returns (env : Env) (data : Doc)
    (s docId : String)
    (hm : missing_fields data = []) (hn : data.service_name = some s)
    (hs : s ∈ SUPPORTED_SERVICES) (hh : pingOk env.esEnv = true)
    (hw : env.indexOutcome ("rbcapp1-" ++ s) (stamped env.now data) =
            IndexOutcome.ok docId) :
    add_status env data =
      (AddResponse.created s (stamped env.now data).service_status
         (stamped env.now data).host_name (isoformat env.now ++ "Z") docId,
       [StoreOp.indexDoc ("rbcapp1-" ++ s) (stamped env.now data)]) ∧
    (stamped env.now data).timestamp = some (isoformat env.now ++ "Z") ∧
    (stamped env.now data).atTimestamp = some (isoformat env.now ++ "Z") ∧
    (AddResponse.created s (stamped env.now data).service_status
       (stamped env.now data).host_name (isoformat env.now ++ "Z")
       docId).httpCode = 201 := by
  refine ⟨?_, rfl, rfl, rfl⟩
  simp [add_status, hm, hn, hs, hh, hw]

/-- C5 witness: the concrete accepted submission of `dataWithTs` against
`envMixed`, with the store id `id0`. -/
theorem submit_success_stamps_and_returns_witness :
    add_status envMixed dataWithTs =
      (AddResponse.created "httpd" (some "UP") (some "h1")
         "2024-01-02T03:04:05Z" "id0",
       [StoreOp.indexDoc "rbcapp1-httpd" (stamped envMixed.now dataWithTs)]) :=
  (submit_success_stamps_and_returns envMixed dataWithTs "httpd" "id0"
    (by decide) rfl (by decide) (by decide) rfl).1

/-- C4 counterexample: in a cycle where writing `rabbitmq`'s file raises
`disk full` (and `httpd`'s write succeeds), only `httpd` and `rabbitmq`
are attempted — `postgresql` is never attempted — and the cycle's error
propagates through `main`, which re-raises it, failing the process. -/
theorem emitter_failure_counterexample :
    monitor_all_services
        { now := ⟨2024, 1, 2, 3, 4, 5, 0⟩, nodename := "host1",
          writeOutcome := fun s =>
            if s = "rabbitmq" then WriteOutcome.raises "disk full"
            else WriteOutcome.ok } =
      (["httpd", "rabbitmq"], Except.error "disk full") ∧
    "postgresql" ∉
      (monitor_all_services
        { now := ⟨2024, 1, 2, 3, 4, 5, 0⟩, nodename := "host1",
          writeOutcome := fun s =>
            if s = "rabbitmq" then WriteOutcome.raises "disk full"
            else WriteOutcome.ok }).1 ∧
    main_one_cycle
        { now := ⟨2024, 1, 2, 3, 4, 5, 0⟩, nodename := "host1",
          writeOutcome := fun s =>
            if s = "rabbitmq" then WriteOutcome.raises "disk full"
            else WriteOutcome.ok } = Except.error "disk full" := by
  refine ⟨rfl, by decide, rfl⟩

/-- C4 (amended): a failure while persisting one service's Observation
aborts the emitter cycle — the services after it in registry order are
not attempted — and the exception propagates out of
`monitor_all_services`; `main` logs it and re-raises, so the cycle
failure terminates the process. -/
theorem emitter_failure_aborts_cycle (env : MonitorEnv) (msg : String)
    (h1 : env.writeOutcome "httpd" = WriteOutcome.ok)
    (h2 : env.writeOutcome "rabbitmq" = WriteOutcome.raises msg) :
    monitor_all_services env = (["httpd", "rabbitmq"], Except.error msg) ∧
    main_one_cycle env = Except.error msg := by
  have hm : monitor_all_services env = (["httpd", "rabbitmq"], Except.error msg) := by
    simp [monitor_all_services, monitor_services_list, service_status_config,
      monitor_loop, generate_status_json, h1, h2]
  exact ⟨hm, by simp [main_one_cycle, hm]⟩

/-- C4 witness: the concrete failing cycle of the counterexample,
obtained from the amended theorem. -/
theorem emitter_failure_aborts_cycle_witness :
    monitor_all_services
        { now := ⟨2024, 1, 2, 3, 4, 5, 0⟩, nodename := "host1",
          writeOutcome := fun s =>
            if s = "rabbitmq" then WriteOutcome.raises "oops"
            else WriteOutcome.ok } =
      (["httpd", "rabbitmq"], Except.error "oops") :=
  (emitter_failure_aborts_cycle _ "oops" rfl rfl).1

/-- C9: every Observation persisted by a write path carries both a
`timestamp` and an `@timestamp` field, the two are equal, and both hold
the ISO-8601 rendering of the current UTC instant with a trailing `Z`:
(i) whatever document `POST /add` hands to the store on a valid,
registered, reachable request (whether the write then succeeds or
raises); (ii) the payload the emitter's file-based transport writes. -/
theorem write_paths_duplicate_timestamp (env : Env) (data : Doc) (s : String)
    (hm : missing_fields data = []) (hn : data.service_name = some s)
    (hs : s ∈ SUPPORTED_SERVICES) (hh : pingOk env.esEnv = true) :
    ((add_status env data).2 =
        [StoreOp.indexDoc ("rbcapp1-" ++ s) (stamped env.now data)] ∧
      (stamped env.now data).timestamp = (stamped env.now data).atTimestamp ∧
      (stamped env.now data).atTimestamp = some (isoformat env.now ++ "Z")) ∧
    (∀ (menv : MonitorEnv) (sv st : String),
      (status_payload menv sv st).timestamp = (status_payload menv sv st).atTimestamp ∧
      (status_payload menv sv st).atTimestamp = some (isoformat menv.now ++ "Z")) ∧
    (∀ d : DateTime, ∃ p, isoformat d ++ "Z" = p ++ "Z") := by
  refine ⟨⟨?_, rfl, rfl⟩, fun menv sv st => ⟨rfl, rfl⟩, fun d => ⟨isoformat d, rfl⟩⟩
  unfold add_status
  cases henv : env.indexOutcome ("rbcapp1-" ++ s) (stamped env.now data) <;>
    simp [hm, hn, hs, hh, henv]

/-- C9 witness: the accepted `envMixed` submission and a concrete
emitter payload, both carrying the duplicated stamped fields. -/
theorem write_paths_duplicate_timestamp_witness :
    (add_status envMixed dataWithTs).2 =
      [StoreOp.indexDoc "rbcapp1-httpd" (stamped envMixed.now dataWithTs)] ∧
    (stamped envMixed.now dataWithTs).timestamp =
      (stamped envMixed.now dataWithTs).atTimestamp ∧
    (status_payload
        { now := ⟨2024, 1, 2, 3, 4, 5, 0⟩, nodename := "host1",
          writeOutcome := fun _ => WriteOutcome.ok } "httpd" "UP").timestamp =
      (status_payload
        { now := ⟨2024, 1, 2, 3, 4, 5, 0⟩, nodename := "host1",
          writeOutcome := fun _ => WriteOutcome.ok } "httpd" "UP").atTimestamp :=
  ⟨(write_paths_duplicate_timestamp envMixed dataWithTs "httpd"
      (by decide) rfl (by decide) (by decide)).1.1,
   (write_paths_duplicate_timestamp envMixed dataWithTs "httpd"
      (by decide) rfl (by decide) (by decide)).1.2.1,
   ((write_paths_duplicate_timestamp envMixed dataWithTs "httpd"
      (by decide) rfl (by decide) (by decide)).2.1
      { now := ⟨2024, 1, 2, 3, 4, 5, 0⟩, nodename := "host1",
        writeOutcome := fun _ => WriteOutcome.ok } "httpd" "UP").1⟩

/-- C10: for a registered service whose latest stored document lacks
`service_status`, both `GET /healthcheck/<service>` and
`GET /healthcheck` report that service's status as `UNKNOWN` (as a 200
success, not a failure); likewise a document lacking `@timestamp` is
reported with timestamp `N/A` by both. -/
theorem absent_fields_report_defaults (env : Env) (s : String) (hit : Doc)
    (hs : s ∈ SUPPORTED_SERVICES) (hh : pingOk env.esEnv = true)
    (hf : env.search ("rbcapp1-" ++ s) = QueryOutcome.found hit) :
    (hit.service_status = none →
      (healthcheck_service env s).1.statusString = some "UNKNOWN" ∧
      ∃ svcs tr ts, healthcheck env = (HealthcheckResponse.ok ts svcs, tr) ∧
        svcs.lookup s =
          some { status := "UNKNOWN", timestamp := hit.atTimestamp.getD "N/A" }) ∧
    (hit.atTimestamp = none →
      (healthcheck_service env s).1.timestampString = some "N/A" ∧
      ∃ svcs tr ts, healthcheck env = (HealthcheckResponse.ok ts svcs, tr) ∧
        svcs.lookup s =
          some { status := hit.service_status.getD "UNKNOWN", timestamp := "N/A" }) ∧
    (healthcheck_service env s).1.httpCode = 200 := by
  have hc := pingOk_client env.esEnv hh
  have hone : healthcheck_service env s =
      (ServiceCheckResponse.ok s (hit.service_status.getD "UNKNOWN")
        (hit.host_name.getD "N/A") (hit.atTimestamp.getD "N/A"),
       [StoreOp.search ("rbcapp1-" ++ s)]) := by
    simp [healthcheck_service, hs, hh, get_service_status_from_elasticsearch, hc, hf]
  have hall := healthcheck_healthy env hh
  have hlook := services_lookup env s hs
  refine ⟨?_, ?_, by rw [hone]; rfl⟩
  · intro hnone
    refine ⟨by rw [hone]; simp [ServiceCheckResponse.statusString, hnone], ?_⟩
    refine ⟨_, _, _, hall, ?_⟩
    rw [hlook, hf]
    simp [serviceEntry, hnone]
  · intro hnone
    refine ⟨by rw [hone]; simp [ServiceCheckResponse.timestampString, hnone], ?_⟩
    refine ⟨_, _, _, hall, ?_⟩
    rw [hlook, hf]
    simp [serviceEntry, hnone]

/-- An environment whose `postgresql` collection's latest document lacks
both `service_status` and `@timestamp`. -/
def envBareDoc : Env :=
  { esEnv := { constructionRaises := false, ping := PingOutcome.ok true },
    search := fun idx =>
      if idx = "rbcapp1-postgresql" then
        QueryOutcome.found { host_name := some "h2" }
      else QueryOutcome.empty,
    indexOutcome := fun _ _ => IndexOutcome.ok "id0",
    now := ⟨2024, 1, 2, 3, 4, 5, 0⟩ }

/-- C10 witness: the bare `postgresql` document is reported as
`UNKNOWN` / `N/A` by the single-service endpoint, as a 200. -/
theorem absent_fields_report_defaults_witness :
    (healthcheck_service envBareDoc "postgresql").1.statusString = some "UNKNOWN" ∧
    (healthcheck_service envBareDoc "postgresql").1.timestampString = some "N/A" ∧
    (healthcheck_service envBareDoc "postgresql").1.httpCode = 200 :=
  ⟨((absent_fields_report_defaults envBareDoc "postgresql" { host_name := some "h2" }
      (by decide) (by decide) rfl).1 rfl).1,
   ((absent_fields_report_defaults envBareDoc "postgresql" { host_name := some "h2" }
      (by decide) (by decide) rfl).2.1 rfl).1,
   (absent_fields_report_defaults envBareDoc "postgresql" { host_name := some "h2" }
      (by decide) (by decide) rfl).2.2⟩

end Rbcapp1
